import Mathlib

/-!
Verification of the scrolling piano-roll performance test (src/main.cpp).

The development shallowly embeds the data model and the operations of the
program: layout constants, the tick-to-pixel and pitch-to-pixel mapping
lambdas of Piano_Timeline, the note-box construction of
Piano_Timeline set_channel, the scroll-follow policy of Piano_Roll
focus_cursor and highlight_tick, the fake playback engine IT_Module,
the key-highlight dispatch of Piano_Keys set_channel_pitch, the
coalesced UI-wakeup flag shared between the playback thread and
sync_cb, and the synthetic note generator build_note_view.

Machine integers (int32_t, int) are modelled as Int; every value
involved stays far below 2^31 (song length 3072, pixel coordinates in
the tens of thousands), so wraparound never occurs on the modelled
paths.  C++ integer division truncates toward zero and is rendered as
Int.tdiv.
-/

/-! ### Layout constants (main.cpp lines 52-65) -/

def NUM_WHITE_NOTES : Int := 7

def NUM_BLACK_NOTES : Int := 5

def NUM_NOTES_PER_OCTAVE : Int := NUM_WHITE_NOTES + NUM_BLACK_NOTES

def NUM_OCTAVES : Int := 8

def WHITE_KEY_WIDTH : Int := 150

def WHITE_KEY_HEIGHT : Int := 24

def BLACK_KEY_WIDTH : Int := 100

def BLACK_KEY_HEIGHT : Int := 20

def TICK_WIDTH : Int := 3

def TICKS_PER_STEP : Int := 12

/-! ### Pitch enumeration (main.cpp lines 19-33) -/

/-- The chromatic pitch enumeration, REST included, as in the C++
enum class Pitch. -/
inductive Pitch where
  | REST
  | C_NAT
  | C_SHARP
  | D_NAT
  | D_SHARP
  | E_NAT
  | F_NAT
  | F_SHARP
  | G_NAT
  | G_SHARP
  | A_NAT
  | A_SHARP
  | B_NAT
deriving DecidableEq

/-- Numeric value of a pitch, as produced by the C++ cast (int)(pitch):
REST is 0 and B_NAT is 12. -/
def Pitch.val : Pitch → Int
  | .REST => 0
  | .C_NAT => 1
  | .C_SHARP => 2
  | .D_NAT => 3
  | .D_SHARP => 4
  | .E_NAT => 5
  | .F_NAT => 6
  | .F_SHARP => 7
  | .G_NAT => 8
  | .G_SHARP => 9
  | .A_NAT => 10
  | .A_SHARP => 11
  | .B_NAT => 12

/-- The C++ cast (Pitch)(n) for the values 0..12; build_note_view only
produces arguments in 1..12. -/
def Pitch.castNat : Nat → Pitch
  | 1 => .C_NAT
  | 2 => .C_SHARP
  | 3 => .D_NAT
  | 4 => .D_SHARP
  | 5 => .E_NAT
  | 6 => .F_NAT
  | 7 => .F_SHARP
  | 8 => .G_NAT
  | 9 => .G_SHARP
  | 10 => .A_NAT
  | 11 => .A_SHARP
  | 12 => .B_NAT
  | _ => .REST

/-! ### Note data (main.cpp lines 35-40 and 113-122) -/

/-- The Note_View struct: length, pitch, octave, speed. -/
structure Note_View where
  length : Int
  pitch : Pitch
  octave : Int
  speed : Int
deriving DecidableEq

/-- A Note_Box widget as far as layout is concerned: the referenced
Note_View, the stored tick, and the box rectangle set by resize or by
the constructor call in set_channel. -/
structure Note_Box where
  note_view : Note_View
  tick : Int
  x : Int
  y : Int
  w : Int
  h : Int
deriving DecidableEq

/-! ### Piano_Roll geometry getters (main.cpp lines 611-633) -/

def white_key_height : Int := WHITE_KEY_HEIGHT

def black_key_height : Int := BLACK_KEY_HEIGHT

def octave_height : Int := white_key_height * NUM_WHITE_NOTES

def note_row_height : Int := octave_height.tdiv NUM_NOTES_PER_OCTAVE

def black_key_offset : Int := note_row_height.tdiv 2 - black_key_height.tdiv 2

def tick_width : Int := TICK_WIDTH

/-! ### The tick-to-pixel lambdas of Piano_Timeline calc_sizes
(main.cpp lines 439-444) -/

/-- The lambda tick_to_x_pos in Piano_Timeline calc_sizes; x0 is the
group origin x(). -/
def calcSizes_tick_to_x_pos (x0 tick : Int) : Int :=
  x0 + WHITE_KEY_WIDTH + tick * tick_width

/-- The lambda pitch_to_y_pos in Piano_Timeline calc_sizes; y0 is the
group origin y(). -/
def calcSizes_pitch_to_y_pos (y0 : Int) (pitch : Pitch) (octave : Int) : Int :=
  y0 + (NUM_OCTAVES - octave) * octave_height
    + (NUM_NOTES_PER_OCTAVE - pitch.val) * note_row_height

/-! ### The tick-to-pixel lambdas of Piano_Timeline set_channel
(main.cpp lines 502-507) -/

/-- The lambda tick_to_x_pos in Piano_Timeline set_channel. -/
def setChannel_tick_to_x_pos (x0 tick : Int) : Int :=
  x0 + WHITE_KEY_WIDTH + tick * tick_width

/-- The lambda pitch_to_y_pos in Piano_Timeline set_channel. -/
def setChannel_pitch_to_y_pos (y0 : Int) (pitch : Pitch) (octave : Int) : Int :=
  y0 + (NUM_OCTAVES - octave) * octave_height
    + (NUM_NOTES_PER_OCTAVE - pitch.val) * note_row_height

/-- The resize call applied to one existing note box inside the
resize_notes lambda of Piano_Timeline calc_sizes (main.cpp lines
446-455). -/
def calcSizes_resize_note (x0 y0 : Int) (note : Note_Box) : Note_Box :=
  { note with
    x := calcSizes_tick_to_x_pos x0 note.tick
    y := calcSizes_pitch_to_y_pos y0 note.note_view.pitch note.note_view.octave
    w := note.note_view.length * note.note_view.speed * tick_width
    h := note_row_height }

/-- Resizing every box of a channel, the loop body of resize_notes in
Piano_Timeline calc_sizes. -/
def calcSizes_resize_notes (x0 y0 : Int) (notes : List Note_Box) : List Note_Box :=
  notes.map (calcSizes_resize_note x0 y0)

/-! ### Note-box construction in Piano_Timeline set_channel
(main.cpp lines 509-527) -/

/-- The loop of Piano_Timeline set_channel: walk the Note_View list
keeping a running tick, create a box for every non-rest note, and
advance the tick by length times speed for every note, rest or not. -/
def set_channel_go (x0 y0 tick : Int) : List Note_View → List Note_Box
  | [] => []
  | note :: rest =>
    if note.pitch ≠ Pitch.REST then
      { note_view := note
        tick := tick
        x := setChannel_tick_to_x_pos x0 tick
        y := setChannel_pitch_to_y_pos y0 note.pitch note.octave
        w := note.length * note.speed * tick_width
        h := note_row_height } ::
        set_channel_go x0 y0 (tick + note.length * note.speed) rest
    else
      set_channel_go x0 y0 (tick + note.length * note.speed) rest

/-- Piano_Timeline set_channel starts its running tick at 0. -/
def set_channel (x0 y0 : Int) (notes : List Note_View) : List Note_Box :=
  set_channel_go x0 y0 0 notes

/-- Claim C1: the tick/pixel mapping is pure arithmetic: tick maps to
x origin + WHITE_KEY_WIDTH + tick * tick_width with the constants 150
and 3, pitch and octave map to y origin + (8 - octave) * 168 +
(12 - pitch) * 14 with octave_height 168 and note_row_height 14, and
the formulas used when creating note boxes (set_channel) and when
resizing them (calc_sizes) are the same. -/
theorem tick_pixel_mapping_pure_arithmetic :
    (∀ x0 t : Int, calcSizes_tick_to_x_pos x0 t = x0 + 150 + t * 3)
    ∧ (∀ (y0 : Int) (p : Pitch) (o : Int), 1 ≤ p.val → p.val ≤ 12 →
        calcSizes_pitch_to_y_pos y0 p o = y0 + (8 - o) * 168 + (12 - p.val) * 14)
    ∧ octave_height = 24 * 7
    ∧ note_row_height = 14
    ∧ setChannel_tick_to_x_pos = calcSizes_tick_to_x_pos
    ∧ setChannel_pitch_to_y_pos = calcSizes_pitch_to_y_pos
    ∧ (∀ x0 y0 : Int, ∀ notes : List Note_View,
        calcSizes_resize_notes x0 y0 (set_channel x0 y0 notes) = set_channel x0 y0 notes) := by
  refine ⟨?_, ?_, by decide, by decide, rfl, rfl, ?_⟩
  · intro x0 t
    simp [calcSizes_tick_to_x_pos, WHITE_KEY_WIDTH, tick_width, TICK_WIDTH]
  · intro y0 p o _ _
    have h1 : octave_height = 168 := by decide
    have h2 : note_row_height = 14 := by decide
    have h3 : NUM_OCTAVES = 8 := by decide
    have h4 : NUM_NOTES_PER_OCTAVE = 12 := by decide
    simp only [calcSizes_pitch_to_y_pos, h1, h2, h3, h4]
  · intro x0 y0 notes
    suffices h : ∀ t, calcSizes_resize_notes x0 y0 (set_channel_go x0 y0 t notes)
        = set_channel_go x0 y0 t notes by
      exact h 0
    induction notes with
    | nil => intro t; rfl
    | cons n rest ih =>
      intro t
      by_cases hp : n.pitch ≠ Pitch.REST
      · simp only [set_channel_go, if_pos hp, calcSizes_resize_notes, List.map_cons]
        have := ih (t + n.length * n.speed)
        simp only [calcSizes_resize_notes] at this
        rw [this]
        simp [calcSizes_resize_note, calcSizes_tick_to_x_pos, setChannel_tick_to_x_pos,
          calcSizes_pitch_to_y_pos, setChannel_pitch_to_y_pos]
      · simp only [set_channel_go, if_neg hp]
        exact ih (t + n.length * n.speed)

/-- Witness for the pitch-range hypotheses of
tick_pixel_mapping_pure_arithmetic, at pitch E_NAT and octave 3. -/
theorem tick_pixel_mapping_pure_arithmetic_witness :
    calcSizes_pitch_to_y_pos 10 Pitch.E_NAT 3 = 10 + (8 - 3) * 168 + (12 - 5) * 14 := by
  have h := tick_pixel_mapping_pure_arithmetic.2.1 10 Pitch.E_NAT 3 (by decide) (by decide)
  simpa using h

/-! ### Cumulative tick offsets (claim C7) -/

/-- Specification-side annotation of a note list with its cumulative
tick offsets: the note at position i is paired with the running tick
that set_channel reaches just before processing it. -/
def ticked (t : Int) : List Note_View → List (Int × Note_View)
  | [] => []
  | n :: rest => (t, n) :: ticked (t + n.length * n.speed) rest

/-- The box built by set_channel for a non-rest note sitting at
cumulative tick t. -/
def set_channel_box (x0 y0 t : Int) (note : Note_View) : Note_Box :=
  { note_view := note
    tick := t
    x := setChannel_tick_to_x_pos x0 t
    y := setChannel_pitch_to_y_pos y0 note.pitch note.octave
    w := note.length * note.speed * tick_width
    h := note_row_height }

theorem ticked_map_snd (t : Int) (notes : List Note_View) :
    (ticked t notes).map Prod.snd = notes := by
  induction notes generalizing t with
  | nil => rfl
  | cons n rest ih => simp [ticked, ih]

theorem ticked_length (t : Int) (notes : List Note_View) :
    (ticked t notes).length = notes.length := by
  induction notes generalizing t with
  | nil => rfl
  | cons n rest ih => simp [ticked, ih]

theorem set_channel_go_eq_filterMap (x0 y0 t : Int) (notes : List Note_View) :
    set_channel_go x0 y0 t notes
      = (ticked t notes).filterMap fun q =>
          if q.2.pitch ≠ Pitch.REST then some (set_channel_box x0 y0 q.1 q.2) else none := by
  induction notes generalizing t with
  | nil => rfl
  | cons n rest ih =>
    by_cases hp : n.pitch = Pitch.REST
    · simp [set_channel_go, ticked, List.filterMap_cons, hp, ih]
    · simp [set_channel_go, ticked, List.filterMap_cons, hp, ih, set_channel_box]

theorem ticked_get_fst (t : Int) (notes : List Note_View) (i : Nat)
    (h : i < (ticked t notes).length) :
    ((ticked t notes).get ⟨i, h⟩).1
      = t + (((notes.take i).map fun n => n.length * n.speed).sum) := by
  induction notes generalizing t i with
  | nil => simp [ticked] at h
  | cons n rest ih =>
    cases i with
    | zero => simp [ticked]
    | succ j =>
      have hj : j < (ticked (t + n.length * n.speed) rest).length := by
        simpa [ticked] using h
      have := ih (t + n.length * n.speed) j hj
      simp only [ticked, List.take_succ_cons, List.map_cons, List.sum_cons]
      rw [List.get_cons_succ]
      rw [this]
      ring

/-- Claim C7: the boxes of a channel are exactly the non-rest notes in
sequence order, each stored at the cumulative tick offset equal to
the sum of length * speed over all earlier notes of the sequence
(rests included), with box width length * speed * tick_width; rest
notes produce no box but still advance the running tick. -/
theorem set_channel_cumulative_ticks :
    (∀ x0 y0 : Int, ∀ notes : List Note_View,
      set_channel x0 y0 notes
        = (ticked 0 notes).filterMap fun q =>
            if q.2.pitch ≠ Pitch.REST then some (set_channel_box x0 y0 q.1 q.2) else none)
    ∧ (∀ (t : Int) (notes : List Note_View), (ticked t notes).map Prod.snd = notes)
    ∧ (∀ (t : Int) (notes : List Note_View) (i : Nat) (h : i < (ticked t notes).length),
        ((ticked t notes).get ⟨i, h⟩).1
          = t + (((notes.take i).map fun n => n.length * n.speed).sum))
    ∧ (∀ x0 y0 : Int, ∀ notes : List Note_View, ∀ b ∈ set_channel x0 y0 notes,
        b.w = b.note_view.length * b.note_view.speed * tick_width
          ∧ b.x = setChannel_tick_to_x_pos x0 b.tick
          ∧ b.y = setChannel_pitch_to_y_pos y0 b.note_view.pitch b.note_view.octave) := by
  refine ⟨fun x0 y0 notes => set_channel_go_eq_filterMap x0 y0 0 notes,
    ticked_map_snd, ticked_get_fst, ?_⟩
  intro x0 y0 notes b hb
  rw [set_channel, set_channel_go_eq_filterMap] at hb
  rcases List.mem_filterMap.mp hb with ⟨q, _, hq⟩
  by_cases hp : q.2.pitch ≠ Pitch.REST
  · rw [if_pos hp] at hq
    cases hq
    exact ⟨rfl, rfl, rfl⟩
  · rw [if_neg hp] at hq
    cases hq

/-- Witness for set_channel_cumulative_ticks: a concrete two-note
sequence whose second, non-rest note sits at the cumulative tick of
the leading rest. -/
theorem set_channel_cumulative_ticks_witness :
    ((ticked 0 [⟨2, Pitch.REST, 0, 3⟩, ⟨1, Pitch.C_NAT, 4, 2⟩]).get
        ⟨1, by decide⟩).1
      = 0 + ((([(⟨2, Pitch.REST, 0, 3⟩ : Note_View), ⟨1, Pitch.C_NAT, 4, 2⟩].take 1).map
          fun n => n.length * n.speed).sum)
    ∧ ∀ b ∈ set_channel 5 7 [⟨2, Pitch.REST, 0, 3⟩, ⟨1, Pitch.C_NAT, 4, 2⟩],
        b.w = b.note_view.length * b.note_view.speed * tick_width
          ∧ b.x = setChannel_tick_to_x_pos 5 b.tick
          ∧ b.y = setChannel_pitch_to_y_pos 7 b.note_view.pitch b.note_view.octave := by
  constructor
  · exact set_channel_cumulative_ticks.2.2.1 0 _ 1 (by decide)
  · intro b hb
    exact set_channel_cumulative_ticks.2.2.2 5 7 _ b hb

/-! ### Piano_Roll scroll state and the follow policy
(main.cpp lines 216-231, 742-787) -/

/-- The scroll-relevant state of a Piano_Roll: the current tick _tick,
the _following, _continuous and _paused flags, the _ticks_per_step
field (initialized to TICKS_PER_STEP and never modified), the scroll
offsets xposition() and yposition(), the widget width w(), the
vertical scrollbar width scrollbar.w(), and the timeline child width
_piano_timeline.w().  The note colors and key colors also live in the
widget tree but no operation modelled here reads or writes the scroll
fields through them, so they are omitted. -/
structure Piano_Roll_State where
  tick : Int
  following : Bool
  continuous : Bool
  paused : Bool
  ticks_per_step : Int
  xpos : Int
  ypos : Int
  w : Int
  scrollbar_w : Int
  timeline_w : Int
deriving DecidableEq

/-- Piano_Roll scroll_x_max (main.cpp lines 785-787). -/
def scroll_x_max (s : Piano_Roll_State) : Int :=
  s.timeline_w - (s.w - s.scrollbar_w)

/-- The x_pos computed at the top of Piano_Roll focus_cursor: the
cursor tick is quantized down to a multiple of ticks_per_step by C++
integer division and scaled by tick_width. -/
def cursor_x_pos (s : Piano_Roll_State) : Int :=
  (Int.tdiv s.tick s.ticks_per_step * s.ticks_per_step) * tick_width

/-- The scroll_pos local of Piano_Roll focus_cursor: the centering
formula when center is true, the raw cursor x_pos otherwise. -/
def focus_scroll_pos (s : Piano_Roll_State) (center : Bool) : Int :=
  if center then cursor_x_pos s + WHITE_KEY_WIDTH - Int.tdiv s.w 2 else cursor_x_pos s

/-- Piano_Roll focus_cursor (main.cpp lines 764-771).  scroll_to
updates xposition; sticky_keys repositions the key gutter child and
leaves the scroll offsets alone. -/
def focus_cursor (s : Piano_Roll_State) (center : Bool) : Piano_Roll_State :=
  if (s.following = true ∧ s.continuous = true)
      ∨ cursor_x_pos s > s.xpos + s.w - WHITE_KEY_WIDTH * 2
      ∨ cursor_x_pos s < s.xpos then
    { s with xpos := min (max (focus_scroll_pos s center) 0) (scroll_x_max s) }
  else s

/-- Piano_Roll highlight_tick (main.cpp lines 742-762), restricted to
the scroll-relevant state: an unchanged tick returns immediately;
otherwise _tick is updated, the four channel highlight calls and the
key color updates touch only colors, and focus_cursor runs with its
default argument center = false. -/
def Piano_Roll.highlight_tick (s : Piano_Roll_State) (t : Int) : Piano_Roll_State :=
  if s.tick = t then s
  else focus_cursor { s with tick := t } false

/-- A concrete Piano_Roll state matching the program right after
startup at the default 800x600 window: timeline width
WHITE_KEY_WIDTH + 3072 * TICK_WIDTH = 9366, viewport width 800,
scrollbar width 16, follow mode on, continuous mode on (the menu
default), scrolled to the origin. -/
def examplePianoRoll : Piano_Roll_State :=
  { tick := -1
    following := true
    continuous := true
    paused := false
    ticks_per_step := 12
    xpos := 0
    ypos := 0
    w := 800
    scrollbar_w := 16
    timeline_w := 9366 }

/-- Counterexample to claim C2 as stated: in continuous follow mode a
new tick 1200 yields cursor x_pos 3600 and the scroll position is set
to 3600 itself, which puts the quantized cursor line (at timeline
offset x_pos + WHITE_KEY_WIDTH) at 150 pixels from the viewport left
edge, not at the center 400 = w / 2 of the 800-pixel viewport: the
doubled screen offset is 300, not w = 800. -/
theorem highlight_tick_continuous_not_centered :
    examplePianoRoll.following = true
    ∧ examplePianoRoll.continuous = true
    ∧ examplePianoRoll.tick ≠ 1200
    ∧ (Piano_Roll.highlight_tick examplePianoRoll 1200).xpos = 3600
    ∧ (cursor_x_pos (Piano_Roll.highlight_tick examplePianoRoll 1200) + WHITE_KEY_WIDTH
        - (Piano_Roll.highlight_tick examplePianoRoll 1200).xpos) * 2
      ≠ (Piano_Roll.highlight_tick examplePianoRoll 1200).w := by
  refine ⟨rfl, rfl, by decide, ?_, ?_⟩ <;>
    simp [Piano_Roll.highlight_tick, examplePianoRoll, focus_cursor, cursor_x_pos,
      scroll_x_max, WHITE_KEY_WIDTH, tick_width, TICK_WIDTH] <;> decide

/-- Claim C2 as amended: in continuous follow mode every tick update
scrolls, but the target is the quantized cursor x_pos itself clamped
to [0, scroll_x_max] (focus_cursor runs with center = false), which
parks the cursor at the left edge of the note area rather than at the
viewport center; the centering formula x_pos + WHITE_KEY_WIDTH - w/2
is only used when focus_cursor is called with center = true, which
highlight_tick never does. -/
theorem highlight_tick_continuous_scrolls_to_cursor (s : Piano_Roll_State) (t : Int)
    (hf : s.following = true) (hc : s.continuous = true) (ht : s.tick ≠ t) :
    (Piano_Roll.highlight_tick s t).tick = t
    ∧ (Piano_Roll.highlight_tick s t).xpos
      = min (max ((Int.tdiv t s.ticks_per_step * s.ticks_per_step) * tick_width) 0)
          (scroll_x_max s) := by
  have hne : ¬s.tick = t := ht
  constructor
  · simp [Piano_Roll.highlight_tick, if_neg hne, focus_cursor, hf, hc]
  · simp [Piano_Roll.highlight_tick, if_neg hne, focus_cursor, hf, hc,
      focus_scroll_pos, cursor_x_pos, scroll_x_max]

/-- Witness for highlight_tick_continuous_scrolls_to_cursor at the
startup state and tick 1200. -/
theorem highlight_tick_continuous_scrolls_to_cursor_witness :
    (Piano_Roll.highlight_tick examplePianoRoll 1200).tick = 1200
    ∧ (Piano_Roll.highlight_tick examplePianoRoll 1200).xpos
      = min (max ((Int.tdiv 1200 examplePianoRoll.ticks_per_step
            * examplePianoRoll.ticks_per_step) * tick_width) 0)
          (scroll_x_max examplePianoRoll) :=
  highlight_tick_continuous_scrolls_to_cursor examplePianoRoll 1200 rfl rfl (by decide)

/-- Claim C3: with _continuous false, focus_cursor leaves the
horizontal scroll position unchanged whenever the cursor x_pos lies
between xposition() and xposition() + w() - 2 * WHITE_KEY_WIDTH, and
it changes the scroll position only when x_pos exceeds that right
margin or lies left of xposition(). -/
theorem focus_cursor_margin_policy (s : Piano_Roll_State) (center : Bool)
    (hc : s.continuous = false) :
    (s.xpos ≤ cursor_x_pos s → cursor_x_pos s ≤ s.xpos + s.w - 2 * WHITE_KEY_WIDTH →
      (focus_cursor s center).xpos = s.xpos)
    ∧ ((focus_cursor s center).xpos ≠ s.xpos →
      cursor_x_pos s > s.xpos + s.w - 2 * WHITE_KEY_WIDTH ∨ cursor_x_pos s < s.xpos) := by
  constructor
  · intro hlo hhi
    have hcond : ¬((s.following = true ∧ s.continuous = true)
        ∨ cursor_x_pos s > s.xpos + s.w - WHITE_KEY_WIDTH * 2
        ∨ cursor_x_pos s < s.xpos) := by
      push_neg
      refine ⟨fun h => ?_, by omega, hlo⟩
      simp [hc]
    simp [focus_cursor, if_neg hcond]
  · intro hch
    by_contra hout
    push_neg at hout
    have hcond : ¬((s.following = true ∧ s.continuous = true)
        ∨ cursor_x_pos s > s.xpos + s.w - WHITE_KEY_WIDTH * 2
        ∨ cursor_x_pos s < s.xpos) := by
      push_neg
      refine ⟨fun h => ?_, by omega, hout.2⟩
      simp [hc]
    exact hch (by simp [focus_cursor, if_neg hcond])

/-- Witness for focus_cursor_margin_policy: at the startup state with
continuous scrolling switched off, a cursor inside the margin leaves
xposition at 0. -/
theorem focus_cursor_margin_policy_witness :
    (focus_cursor { examplePianoRoll with continuous := false, tick := 100 } false).xpos
      = ({ examplePianoRoll with continuous := false, tick := 100 } : Piano_Roll_State).xpos := by
  have h := (focus_cursor_margin_policy
    { examplePianoRoll with continuous := false, tick := 100 } false rfl).1
  exact h (by decide) (by decide)

/-- Claim C4: the scroll target of focus_cursor is clamped into
[0, scroll_x_max]: whenever the timeline is at least as wide as the
viewport (scroll_x_max nonnegative, which set_timeline_width
guarantees), a scrolling focus_cursor never leaves xposition negative
or beyond scroll_x_max — both when the continuous-follow branch forces
a scroll and in general whenever xposition changes at all. -/
theorem focus_cursor_clamps_to_bounds (s : Piano_Roll_State) (center : Bool)
    (hmax : 0 ≤ scroll_x_max s) :
    (s.following = true → s.continuous = true →
      0 ≤ (focus_cursor s center).xpos ∧ (focus_cursor s center).xpos ≤ scroll_x_max s)
    ∧ ((focus_cursor s center).xpos ≠ s.xpos →
      0 ≤ (focus_cursor s center).xpos ∧ (focus_cursor s center).xpos ≤ scroll_x_max s) := by
  constructor
  · intro hf hc
    have hcond : (s.following = true ∧ s.continuous = true)
        ∨ cursor_x_pos s > s.xpos + s.w - WHITE_KEY_WIDTH * 2
        ∨ cursor_x_pos s < s.xpos := Or.inl ⟨hf, hc⟩
    simp only [focus_cursor, if_pos hcond]
    constructor
    · simp only [le_min_iff]
      exact ⟨le_max_right _ _, hmax⟩
    · exact min_le_right _ _
  · intro hch
    by_cases hcond : (s.following = true ∧ s.continuous = true)
        ∨ cursor_x_pos s > s.xpos + s.w - WHITE_KEY_WIDTH * 2
        ∨ cursor_x_pos s < s.xpos
    · simp only [focus_cursor, if_pos hcond]
      constructor
      · simp only [le_min_iff]
        exact ⟨le_max_right _ _, hmax⟩
      · exact min_le_right _ _
    · exact absurd (by simp [focus_cursor, if_neg hcond]) hch

/-- Witness for focus_cursor_clamps_to_bounds: at the startup state a
tick far past the song end scrolls to a position inside the bounds. -/
theorem focus_cursor_clamps_to_bounds_witness :
    0 ≤ (focus_cursor { examplePianoRoll with tick := 100000 } false).xpos
    ∧ (focus_cursor { examplePianoRoll with tick := 100000 } false).xpos
      ≤ scroll_x_max { examplePianoRoll with tick := 100000 } := by
  have h := (focus_cursor_clamps_to_bounds
    { examplePianoRoll with tick := 100000 } false (by decide)).1
  exact h rfl rfl

/-! ### The fake playback engine IT_Module (main.cpp lines 808-847) -/

/-- The IT_Module state: _current_tick, _playing, _paused, _speed. -/
structure IT_Module where
  current_tick : Int
  playing : Bool
  paused : Bool
  speed : Int
deriving DecidableEq

/-- The default-constructed IT_Module: tick 0, not playing, not
paused, speed 1. -/
def IT_Module.init : IT_Module :=
  { current_tick := 0, playing := false, paused := false, speed := 1 }

/-- IT_Module ready() always returns true. -/
def IT_Module.ready (_ : IT_Module) : Bool := true

/-- IT_Module stopped(): neither playing nor paused. -/
def IT_Module.stopped (m : IT_Module) : Bool := !m.playing && !m.paused

/-- IT_Module start(). -/
def IT_Module.start (m : IT_Module) : IT_Module :=
  { m with paused := false, playing := true }

/-- IT_Module stop(): also resets the tick to 0. -/
def IT_Module.stop (m : IT_Module) : IT_Module :=
  { m with paused := false, playing := false, current_tick := 0 }

/-- IT_Module pause(). -/
def IT_Module.pause (m : IT_Module) : IT_Module :=
  { m with paused := true, playing := false }

/-- The speed setter IT_Module speed(int). -/
def IT_Module.set_speed (m : IT_Module) (s : Int) : IT_Module :=
  { m with speed := s }

/-- IT_Module play(): a no-op unless ready and playing; otherwise the
tick advances by _speed and wraps to 0 at the song length 3072.  The
source then sets count = 1 and calls stop() only if count == 0, a
branch that never fires; it is kept verbatim here. -/
def IT_Module.play (m : IT_Module) : IT_Module :=
  if !m.ready || !m.playing then m
  else
    let advanced :=
      { m with current_tick :=
          if m.current_tick + m.speed ≥ 3072 then 0 else m.current_tick + m.speed }
    if (1 : Nat) = 0 then advanced.stop else advanced

/-- Claim C5: while playing with speed at least 1, play() either
advances the tick by exactly the speed (when the result stays below
the song length 3072) or wraps it to 0 (when the old tick plus the
speed reaches 3072); play() makes no other change to the tick, and
with playing() false play() leaves the module unchanged. -/
theorem play_tick_monotone_wraps (m : IT_Module) (hs : 1 ≤ m.speed) :
    (m.playing = true →
      ((m.play.current_tick = m.current_tick + m.speed ∧ m.current_tick + m.speed < 3072)
        ∨ (m.play.current_tick = 0 ∧ 3072 ≤ m.current_tick + m.speed)))
    ∧ (m.playing = false → m.play = m) := by
  constructor
  · intro hp
    by_cases hw : m.current_tick + m.speed ≥ 3072
    · right
      refine ⟨?_, hw⟩
      simp [IT_Module.play, IT_Module.ready, hp, if_pos hw]
    · left
      refine ⟨?_, by omega⟩
      simp [IT_Module.play, IT_Module.ready, hp, if_neg hw]
  · intro hp
    simp [IT_Module.play, IT_Module.ready, hp]

/-- Witness for play_tick_monotone_wraps: from the freshly started
module at tick 0 and speed 1, play() advances the tick to 1. -/
theorem play_tick_monotone_wraps_witness :
    (IT_Module.init.start.play.current_tick = IT_Module.init.start.current_tick + 1
      ∧ IT_Module.init.start.current_tick + 1 < 3072)
    ∨ (IT_Module.init.start.play.current_tick = 0
      ∧ 3072 ≤ IT_Module.init.start.current_tick + 1) := by
  have h := (play_tick_monotone_wraps IT_Module.init.start (by decide)).1 rfl
  simpa using h

/-! ### The playing/paused exclusion invariant (claim C6) -/

/-- One UI-reachable operation on the IT_Module: the menu and slider
callbacks invoke start(), stop(), pause(), speed(int), and the
playback thread invokes play(). -/
inductive IT_Op where
  | start
  | stop
  | pause
  | play
  | set_speed (s : Int)
deriving DecidableEq

/-- Apply one operation to the module state. -/
def IT_Module.apply_op (m : IT_Module) : IT_Op → IT_Module
  | .start => m.start
  | .stop => m.stop
  | .pause => m.pause
  | .play => m.play
  | .set_speed s => m.set_speed s

/-- Run a sequence of operations from the default-constructed
module. -/
def IT_Module.run (ops : List IT_Op) : IT_Module :=
  ops.foldl IT_Module.apply_op IT_Module.init

theorem apply_op_not_playing_and_paused (m : IT_Module) (op : IT_Op)
    (h : ¬(m.playing = true ∧ m.paused = true)) :
    ¬((m.apply_op op).playing = true ∧ (m.apply_op op).paused = true) := by
  cases op with
  | start => simp [IT_Module.apply_op, IT_Module.start]
  | stop => simp [IT_Module.apply_op, IT_Module.stop]
  | pause => simp [IT_Module.apply_op, IT_Module.pause]
  | play =>
    simp only [IT_Module.apply_op, IT_Module.play, IT_Module.ready, IT_Module.stop]
    by_cases hp : m.playing = true
    · simp [hp] at h ⊢
      exact h
    · simp only [Bool.not_eq_true] at hp
      simp [hp]
  | set_speed s => simpa [IT_Module.apply_op, IT_Module.set_speed] using h

/-- Claim C6: starting from the default-constructed IT_Module, every
sequence of start(), stop(), pause(), play() and speed() calls keeps
at most one of playing and paused true, so the
playing/paused/stopped tri-state is well defined in every reachable
state. -/
theorem playing_paused_mutually_exclusive (ops : List IT_Op) :
    ¬((IT_Module.run ops).playing = true ∧ (IT_Module.run ops).paused = true) := by
  suffices h : ∀ m : IT_Module, ¬(m.playing = true ∧ m.paused = true) →
      ¬((ops.foldl IT_Module.apply_op m).playing = true
        ∧ (ops.foldl IT_Module.apply_op m).paused = true) by
    exact h IT_Module.init (by simp [IT_Module.init])
  induction ops with
  | nil => intro m hm; exact hm
  | cons op rest ih =>
    intro m hm
    exact ih (m.apply_op op) (apply_op_not_playing_and_paused m op hm)

/-! ### The coalesced UI wakeup flag (main.cpp lines 1101-1146) -/

/-- The cross-thread notification state: the _sync_requested flag of
Main_Window and the number of Fl awake(sync_cb) callbacks queued but
not yet delivered to the UI thread. -/
structure Sync_State where
  sync_requested : Bool
  pending : Nat
deriving DecidableEq

/-- One step of the request/consume protocol.  timer_notify is the
guarded block the playback thread runs under the mutex (both in the
playing branch and in the shutdown branch): a wakeup is queued only
when _sync_requested is false, and the flag is set in the same step;
when the flag is already set the thread queues nothing.  consume is
the delivery of one queued callback: sync_cb runs, does its UI work,
and clears _sync_requested before releasing the mutex. -/
inductive Sync_Step : Sync_State → Sync_State → Prop where
  | timer_notify (n : Nat) :
      Sync_Step { sync_requested := false, pending := n }
        { sync_requested := true, pending := n + 1 }
  | consume (b : Bool) (n : Nat) :
      Sync_Step { sync_requested := b, pending := n + 1 }
        { sync_requested := false, pending := n }

/-- The states reachable from the initial state: flag clear, nothing
queued. -/
inductive Sync_Reachable : Sync_State → Prop where
  | init : Sync_Reachable { sync_requested := false, pending := 0 }
  | step {s t : Sync_State} : Sync_Reachable s → Sync_Step s t → Sync_Reachable t

theorem sync_reachable_flag_counts (s : Sync_State) (h : Sync_Reachable s) :
    s.pending = if s.sync_requested then 1 else 0 := by
  induction h with
  | init => rfl
  | step _ hstep ih =>
    cases hstep with
    | timer_notify n => simp at ih; simp [ih]
    | consume b n =>
      cases b with
      | false => simp at ih
      | true => simp at ih; simp [ih]

/-- Claim C8: wakeup requests are coalesced by the pending-request
flag: in every state reachable under the request/consume step
relation at most one queued wakeup is outstanding, and the flag is
set exactly when one is outstanding. -/
theorem sync_requests_coalesced (s : Sync_State) (h : Sync_Reachable s) :
    s.pending ≤ 1 ∧ (s.sync_requested = true ↔ s.pending = 1) := by
  have hc := sync_reachable_flag_counts s h
  by_cases hf : s.sync_requested = true
  · rw [hf] at hc
    simp at hc
    simp [hf, hc]
  · simp only [Bool.not_eq_true] at hf
    rw [hf] at hc
    simp at hc
    simp [hf, hc]

/-- Witness for sync_requests_coalesced: the state after one timer
notification is reachable and has exactly one outstanding wakeup. -/
theorem sync_requests_coalesced_witness :
    ({ sync_requested := true, pending := 1 } : Sync_State).pending ≤ 1
    ∧ (({ sync_requested := true, pending := 1 } : Sync_State).sync_requested = true
      ↔ ({ sync_requested := true, pending := 1 } : Sync_State).pending = 1) :=
  sync_requests_coalesced _ (Sync_Reachable.step Sync_Reachable.init (Sync_Step.timer_notify 0))

/-! ### Piano_Keys channel-pitch dispatch (main.cpp lines 138-199 and
397-411 and 478-495) -/

/-- The per-channel highlight state of Piano_Keys: the stored pitch
and octave for each of the four channels. -/
structure Piano_Keys_State where
  channel_1_pitch : Pitch
  channel_1_octave : Int
  channel_2_pitch : Pitch
  channel_2_octave : Int
  channel_3_pitch : Pitch
  channel_3_octave : Int
  channel_4_pitch : Pitch
  channel_4_octave : Int
deriving DecidableEq

/-- Piano_Keys set_channel_pitch: the assert is modelled as the none
result; on success the if-else-if chain stores the pitch and octave
into the selected channel (the final else writes channel 4). -/
def Piano_Keys_State.set_channel_pitch (k : Piano_Keys_State) (channel_number : Int)
    (p : Pitch) (o : Int) : Option Piano_Keys_State :=
  if 1 ≤ channel_number ∧ channel_number ≤ 4 then
    some (if channel_number = 1 then
        { k with channel_1_pitch := p, channel_1_octave := o }
      else if channel_number = 2 then
        { k with channel_2_pitch := p, channel_2_octave := o }
      else if channel_number = 3 then
        { k with channel_3_pitch := p, channel_3_octave := o }
      else
        { k with channel_4_pitch := p, channel_4_octave := o })
  else none

/-- The stored pitch and octave of channel j, for stating that the
dispatch touches exactly one channel. -/
def Piano_Keys_State.channel_view (k : Piano_Keys_State) (j : Int) : Pitch × Int :=
  if j = 1 then (k.channel_1_pitch, k.channel_1_octave)
  else if j = 2 then (k.channel_2_pitch, k.channel_2_octave)
  else if j = 3 then (k.channel_3_pitch, k.channel_3_octave)
  else (k.channel_4_pitch, k.channel_4_octave)

/-- The loop of Piano_Timeline highlight_tick as far as Piano_Keys is
concerned: first set_channel_pitch(channel, REST, 0), then walk the
boxes in order, returning early at the first box past the tick and
restoring the sounding note into the channel for every box whose span
covers the tick; the note-color updates touch no key state. -/
def highlight_tick_go (k : Piano_Keys_State) (channel_number : Int) (tick : Int) :
    List Note_Box → Option Piano_Keys_State
  | [] => some k
  | note :: rest =>
    if note.tick > tick then some k
    else if note.tick + note.note_view.length * note.note_view.speed > tick then
      (k.set_channel_pitch channel_number note.note_view.pitch note.note_view.octave).bind
        fun k2 => highlight_tick_go k2 channel_number tick rest
    else highlight_tick_go k channel_number tick rest

/-- Piano_Timeline highlight_tick (main.cpp lines 478-495), key-state
part. -/
def Piano_Timeline.highlight_tick (k : Piano_Keys_State) (notes : List Note_Box)
    (channel_number : Int) (tick : Int) : Option Piano_Keys_State :=
  (k.set_channel_pitch channel_number Pitch.REST 0).bind
    fun k2 => highlight_tick_go k2 channel_number tick notes

/-- Piano_Timeline highlight_channel_1_tick passes the constant 1. -/
def highlight_channel_1_tick (k : Piano_Keys_State) (notes : List Note_Box) (tick : Int) :
    Option Piano_Keys_State :=
  Piano_Timeline.highlight_tick k notes 1 tick

/-- Piano_Timeline highlight_channel_2_tick passes the constant 2. -/
def highlight_channel_2_tick (k : Piano_Keys_State) (notes : List Note_Box) (tick : Int) :
    Option Piano_Keys_State :=
  Piano_Timeline.highlight_tick k notes 2 tick

/-- Piano_Timeline highlight_channel_3_tick passes the constant 3. -/
def highlight_channel_3_tick (k : Piano_Keys_State) (notes : List Note_Box) (tick : Int) :
    Option Piano_Keys_State :=
  Piano_Timeline.highlight_tick k notes 3 tick

/-- Piano_Timeline highlight_channel_4_tick passes the constant 4. -/
def highlight_channel_4_tick (k : Piano_Keys_State) (notes : List Note_Box) (tick : Int) :
    Option Piano_Keys_State :=
  Piano_Timeline.highlight_tick k notes 4 tick

theorem set_channel_pitch_in_range (k : Piano_Keys_State) (c : Int) (p : Pitch) (o : Int)
    (h1 : 1 ≤ c) (h4 : c ≤ 4) :
    ∃ k2, k.set_channel_pitch c p o = some k2
      ∧ ∀ j : Int, 1 ≤ j → j ≤ 4 →
          k2.channel_view j = if j = c then (p, o) else k.channel_view j := by
  refine ⟨_, by rw [Piano_Keys_State.set_channel_pitch, if_pos ⟨h1, h4⟩], ?_⟩
  intro j hj1 hj4
  interval_cases c <;> interval_cases j <;>
    simp [Piano_Keys_State.channel_view]

theorem highlight_tick_go_isSome (c tick : Int) (h1 : 1 ≤ c) (h4 : c ≤ 4)
    (notes : List Note_Box) :
    ∀ k : Piano_Keys_State, (highlight_tick_go k c tick notes).isSome = true := by
  induction notes with
  | nil => intro k; rfl
  | cons note rest ih =>
    intro k
    rw [highlight_tick_go]
    by_cases hpast : note.tick > tick
    · rw [if_pos hpast]; rfl
    · rw [if_neg hpast]
      by_cases hcover : note.tick + note.note_view.length * note.note_view.speed > tick
      · rw [if_pos hcover]
        obtain ⟨k2, hk2, -⟩ :=
          set_channel_pitch_in_range k c note.note_view.pitch note.note_view.octave h1 h4
        rw [hk2, Option.some_bind]
        exact ih k2
      · rw [if_neg hcover]
        exact ih k

theorem timeline_highlight_tick_isSome (k : Piano_Keys_State) (notes : List Note_Box)
    (c tick : Int) (h1 : 1 ≤ c) (h4 : c ≤ 4) :
    (Piano_Timeline.highlight_tick k notes c tick).isSome = true := by
  rw [Piano_Timeline.highlight_tick]
  obtain ⟨k2, hk2, -⟩ := set_channel_pitch_in_range k c Pitch.REST 0 h1 h4
  rw [hk2, Option.some_bind]
  exact highlight_tick_go_isSome c tick h1 h4 notes k2

/-- Claim C9: set_channel_pitch requires a channel number in 1..4 and
then selects exactly that channel, and every call site satisfies the
precondition: the four highlight_channel_N_tick wrappers pass the
constants 1..4 through Piano_Timeline highlight_tick, so the
assertion never fails on any note list, tick or key state. -/
theorem channel_assertion_valid :
    (∀ (k : Piano_Keys_State) (c : Int) (p : Pitch) (o : Int), 1 ≤ c → c ≤ 4 →
      ∃ k2, k.set_channel_pitch c p o = some k2
        ∧ ∀ j : Int, 1 ≤ j → j ≤ 4 →
            k2.channel_view j = if j = c then (p, o) else k.channel_view j)
    ∧ (∀ (k : Piano_Keys_State) (notes : List Note_Box) (tick : Int),
      (highlight_channel_1_tick k notes tick).isSome = true
      ∧ (highlight_channel_2_tick k notes tick).isSome = true
      ∧ (highlight_channel_3_tick k notes tick).isSome = true
      ∧ (highlight_channel_4_tick k notes tick).isSome = true) := by
  refine ⟨fun k c p o h1 h4 => set_channel_pitch_in_range k c p o h1 h4,
    fun k notes tick => ⟨?_, ?_, ?_, ?_⟩⟩ <;>
    exact timeline_highlight_tick_isSome k notes _ tick (by decide) (by decide)

/-- A Piano_Keys state with every channel resting, as after
reset_channel_pitches. -/
def exampleKeys : Piano_Keys_State :=
  { channel_1_pitch := Pitch.REST, channel_1_octave := 0
    channel_2_pitch := Pitch.REST, channel_2_octave := 0
    channel_3_pitch := Pitch.REST, channel_3_octave := 0
    channel_4_pitch := Pitch.REST, channel_4_octave := 0 }

/-- Witness for channel_assertion_valid: channel 2 accepts a pitch and
the channel-3 wrapper succeeds on a concrete box list. -/
theorem channel_assertion_valid_witness :
    (∃ k2, exampleKeys.set_channel_pitch 2 Pitch.G_NAT 5 = some k2
      ∧ ∀ j : Int, 1 ≤ j → j ≤ 4 →
          k2.channel_view j = if j = 2 then (Pitch.G_NAT, 5) else exampleKeys.channel_view j)
    ∧ (highlight_channel_3_tick exampleKeys
        [set_channel_box 0 0 0 ⟨4, Pitch.C_NAT, 3, 2⟩] 5).isSome = true := by
  constructor
  · exact channel_assertion_valid.1 exampleKeys 2 Pitch.G_NAT 5 (by decide) (by decide)
  · exact (channel_assertion_valid.2 exampleKeys
      [set_channel_box 0 0 0 ⟨4, Pitch.C_NAT, 3, 2⟩] 5).2.2.1

/-! ### The synthetic note generator Piano_Roll build_note_view
(main.cpp lines 676-693) -/

/-- The while loop of Piano_Roll build_note_view.  The C library rand
stream is modelled as a function rng from call index to a nonnegative
value; one iteration consumes three calls in source order, speed =
rand % 4 + 1, length = rand % 4 + 1, pitch = (Pitch)(rand % 12 + 1),
sets octave to the channel number, advances the running tick by
length * speed, and appends the note; the loop runs while the tick is
below 3072 - 16 = 3056. -/
def build_note_view_go (rng : Nat → Nat) (channel_number : Int) (idx tick : Nat) :
    List Note_View :=
  if tick < 3056 then
    { length := ((rng (idx + 1) % 4 + 1 : Nat) : Int)
      pitch := Pitch.castNat (rng (idx + 2) % 12 + 1)
      octave := channel_number
      speed := ((rng idx % 4 + 1 : Nat) : Int) } ::
      build_note_view_go rng channel_number (idx + 3)
        (tick + (rng (idx + 1) % 4 + 1) * (rng idx % 4 + 1))
  else []
termination_by 3056 - tick
decreasing_by
  simp_wf
  have hp : 1 ≤ (rng (idx + 1) % 4 + 1) * (rng idx % 4 + 1) :=
    Nat.mul_pos (by omega) (by omega)
  omega

/-- Piano_Roll build_note_view starts at tick 0 with a fresh rand
stream. -/
def build_note_view (rng : Nat → Nat) (channel_number : Int) : List Note_View :=
  build_note_view_go rng channel_number 0 0

/-- Cumulative tick length of a note sequence: the sum of
length * speed over all its notes. -/
def note_ticks_sum (notes : List Note_View) : Int :=
  (notes.map fun n => n.length * n.speed).sum

theorem castNat_mod_twelve_ne_REST (r : Nat) :
    Pitch.castNat (r % 12 + 1) ≠ Pitch.REST := by
  have h : r % 12 < 12 := Nat.mod_lt _ (by decide)
  generalize r % 12 = k at h
  interval_cases k <;> decide

theorem build_note_view_go_mem (rng : Nat → Nat) (c : Int) (idx tick : Nat) :
    ∀ n ∈ build_note_view_go rng c idx tick,
      n.pitch ≠ Pitch.REST ∧ 1 ≤ n.length ∧ n.length ≤ 4
        ∧ 1 ≤ n.speed ∧ n.speed ≤ 4 ∧ n.octave = c := by
  induction idx, tick using build_note_view_go.induct rng c with
  | case1 idx tick hlt ih =>
    intro n hn
    rw [build_note_view_go, if_pos hlt] at hn
    rcases List.mem_cons.mp hn with hhead | htail
    · subst hhead
      refine ⟨castNat_mod_twelve_ne_REST _, ?_, ?_, ?_, ?_, rfl⟩ <;>
        simp <;> omega
    · exact ih n htail
  | case2 idx tick hlt =>
    intro n hn
    rw [build_note_view_go, if_neg hlt] at hn
    simp at hn

theorem build_note_view_go_sum (rng : Nat → Nat) (c : Int) (idx tick : Nat)
    (h : tick < 3072) :
    3056 ≤ (tick : Int) + note_ticks_sum (build_note_view_go rng c idx tick)
      ∧ (tick : Int) + note_ticks_sum (build_note_view_go rng c idx tick) < 3072 := by
  induction idx, tick using build_note_view_go.induct rng c with
  | case1 idx tick hlt ih =>
    rw [build_note_view_go, if_pos hlt]
    simp only [note_ticks_sum, List.map_cons, List.sum_cons]
    have h1 : rng (idx + 1) % 4 + 1 ≤ 4 := by omega
    have h2 : rng idx % 4 + 1 ≤ 4 := by omega
    have hm : (rng (idx + 1) % 4 + 1) * (rng idx % 4 + 1) ≤ 16 :=
      le_trans (Nat.mul_le_mul h1 h2) (by norm_num)
    have := ih (by omega)
    simp only [note_ticks_sum] at this
    push_cast at this ⊢
    omega
  | case2 idx tick hlt =>
    rw [build_note_view_go, if_neg hlt]
    simp only [note_ticks_sum, List.map_nil, List.sum_nil, add_zero]
    omega

/-- Claim C10: for every random stream, every note generated by
build_note_view for channel c has a sounding pitch (never REST),
length in [1, 4], speed in [1, 4] and octave equal to c, and the
cumulative tick length of the sequence is at least 3056 = 3072 - 16
and strictly below the song length 3072, so the generated notes never
extend past the song end. -/
theorem build_note_view_bounded (rng : Nat → Nat) (c : Int) :
    (∀ n ∈ build_note_view rng c,
      n.pitch ≠ Pitch.REST ∧ 1 ≤ n.length ∧ n.length ≤ 4
        ∧ 1 ≤ n.speed ∧ n.speed ≤ 4 ∧ n.octave = c)
    ∧ 3056 ≤ note_ticks_sum (build_note_view rng c)
    ∧ note_ticks_sum (build_note_view rng c) < 3072 := by
  refine ⟨build_note_view_go_mem rng c 0 0, ?_, ?_⟩
  · have h := (build_note_view_go_sum rng c 0 0 (by omega)).1
    simpa [build_note_view] using h
  · have h := (build_note_view_go_sum rng c 0 0 (by omega)).2
    simpa [build_note_view] using h

/-- Witness for build_note_view_bounded: with the constant stream 3
the first generated note of channel 1 is a length-4 speed-4 D sharp
at octave 1 and satisfies every bound. -/
theorem build_note_view_bounded_witness :
    ((⟨4, Pitch.D_SHARP, 1, 4⟩ : Note_View) ∈ build_note_view (fun _ => 3) 1)
    ∧ ((⟨4, Pitch.D_SHARP, 1, 4⟩ : Note_View).pitch ≠ Pitch.REST
      ∧ 1 ≤ (⟨4, Pitch.D_SHARP, 1, 4⟩ : Note_View).length
      ∧ (⟨4, Pitch.D_SHARP, 1, 4⟩ : Note_View).length ≤ 4
      ∧ 1 ≤ (⟨4, Pitch.D_SHARP, 1, 4⟩ : Note_View).speed
      ∧ (⟨4, Pitch.D_SHARP, 1, 4⟩ : Note_View).speed ≤ 4
      ∧ (⟨4, Pitch.D_SHARP, 1, 4⟩ : Note_View).octave = 1) := by
  have hmem : (⟨4, Pitch.D_SHARP, 1, 4⟩ : Note_View) ∈ build_note_view (fun _ => 3) 1 := by
    rw [build_note_view, build_note_view_go, if_pos (by norm_num)]
    rw [List.mem_cons]
    left
    decide
  exact ⟨hmem, (build_note_view_bounded (fun _ => 3) 1).1 _ hmem⟩
